import Mathlib

set_option linter.unusedVariables false

/-
Verification of the remote LaTeX-compilation client of
dhyan14/ai-powered-latex-document-creator.

The repository contains two implementations of `compileLatexToPdf`:
  * `src/services/latexCompilationService.ts` - a single-phase client of
    latexonline.cc: one POST, the response is either the PDF itself or a
    textual log, discriminated by the content-type header;
  * the tail of `src/services/geminiService.ts` - a two-phase client of
    rtex.probablya.dev: a JSON submit call followed (on success) by one
    download call for the produced PDF.

Both are embedded below as total functions over an explicit model of the
network environment.  A network interaction either throws (a rejected
`fetch` promise, carried with the JavaScript error class information the
code inspects) or produces a response whose observable parts are the
fields the code actually reads: `ok`, `status`, `statusText`, the
`content-type` header, the body bytes (modelled as a string of bytes),
the `Blob.type` of the body, and the result of `Response.json()`.
Every `throw new Error(...)` site of the source becomes one constructor
of an error type, so the promise-rejection behaviour of the source is the
`Except.error` branch of the embedding.
-/

/-- JavaScript `String.prototype.includes` restricted to a prefix test:
`startsWithList p l` holds when `p` is a prefix of `l`. -/
def startsWithList : List Char → List Char → Bool
  | [], _ => true
  | _ :: _, [] => false
  | p :: ps, x :: xs => p == x && startsWithList ps xs

/-- `occursIn needle haystack`: the character list `needle` occurs
contiguously somewhere in `haystack`. -/
def occursIn : List Char → List Char → Bool
  | needle, [] => startsWithList needle []
  | needle, x :: xs => startsWithList needle (x :: xs) || occursIn needle xs

/-- JavaScript `s.includes(sub)`: substring containment. -/
def includes (s sub : String) : Bool :=
  occursIn sub.data s.data

/-- JavaScript `s.toLowerCase()` restricted to ASCII case folding (every
case marker the clients search for is ASCII). -/
def jsToLower (s : String) : String :=
  String.mk (s.data.map Char.toLower)

/-- JavaScript truthiness of a nullable string (`null`, `undefined` and
`""` are falsy; every other string is truthy). -/
def truthyOpt : Option String → Bool
  | none => false
  | some s => !(s == "")

/-- The standard base64 alphabet, in value order. -/
def b64Alphabet : List Char :=
  "ABCDEFGHIJKLMNOPQRSTUVWXYZabcdefghijklmnopqrstuvwxyz0123456789+/".data

/-- The base64 digit of a sextet value. -/
def b64Char (n : Nat) : Char :=
  b64Alphabet.getD n 'A'

/-- The sextet value of a base64 digit, `none` on a character outside the
alphabet (this is what makes the browser decoder throw). -/
def b64Val (c : Char) : Option Nat :=
  b64Alphabet.findIdx? (fun x => x == c)

/-- Standard base64 encoding of a byte sequence, with `=` padding. -/
def b64Encode : List Nat → List Char
  | [] => []
  | [a] => [b64Char (a / 4), b64Char (a % 4 * 16), '=', '=']
  | [a, b] => [b64Char (a / 4), b64Char (a % 4 * 16 + b / 16), b64Char (b % 16 * 4), '=']
  | a :: b :: c :: rest =>
      b64Char (a / 4) :: b64Char (a % 4 * 16 + b / 16) ::
      b64Char (b % 16 * 4 + c / 64) :: b64Char (c % 64) :: b64Encode rest

/-- The ASCII whitespace characters that the forgiving-base64 decoder
removes before decoding. -/
def isB64Space (c : Char) : Bool :=
  c == '\t' || c == '\n' || c == '\x0c' || c == '\r' || c == ' '

/-- Remove one or two trailing `=` padding characters, exactly as the
forgiving-base64 decoder does when the input length is a multiple of
four. -/
def dropTrailingPad : List Char → List Char
  | [] => []
  | c :: cs =>
      if cs = [] ∧ c = '=' then []
      else if cs = ['='] ∧ c = '=' then []
      else c :: dropTrailingPad cs

/-- Map every character to its sextet value; `none` on any character
outside the base64 alphabet (including a non-trailing `=`). -/
def b64Sextets : List Char → Option (List Nat)
  | [] => some []
  | c :: cs =>
      match b64Val c, b64Sextets cs with
      | some v, some vs => some (v :: vs)
      | _, _ => none

/-- Assemble bytes from sextets: each full group of four sextets yields
three bytes; a final group of two or three sextets yields one or two
bytes with the leftover bits discarded; a final single sextet (input
length one more than a multiple of four) is a decode failure. -/
def bytesOfSextets : List Nat → Option (List Nat)
  | [] => some []
  | [_] => none
  | [a, b] => some [a * 4 + b / 16]
  | [a, b, c] => some [a * 4 + b / 16, b % 16 * 16 + c / 4]
  | a :: b :: c :: d :: rest =>
      (bytesOfSextets rest).map
        (fun bs => (a * 4 + b / 16) :: (b % 16 * 16 + c / 4) :: (c % 4 * 64 + d) :: bs)

/-- The normalisation pass of the forgiving-base64 decoder: strip ASCII
whitespace, then, when the remaining length is a multiple of four,
remove up to two trailing `=` padding characters. -/
def stripForgiving (l : List Char) : List Char :=
  if ((l.filter (fun ch => !(isB64Space ch))).length % 4 == 0) then
    dropTrailingPad (l.filter (fun ch => !(isB64Space ch)))
  else
    l.filter (fun ch => !(isB64Space ch))

/-- The forgiving-base64 decode algorithm implemented by the browser
`atob` primitive the source calls: strip whitespace, remove trailing
padding, fail on a length one more than a multiple of four or on any
character outside the alphabet (a leftover `=` included), and otherwise
assemble bytes, discarding leftover bits of an unpadded final group.
`none` models the thrown `InvalidCharacterError`. -/
def forgivingBase64 (l : List Char) : Option (List Nat) :=
  (b64Sextets (stripForgiving l)).bind bytesOfSextets

/-- Browser `atob`: forgiving-base64 decode to a string of bytes
(characters of code below 256); `none` models the thrown error. -/
def atob (s : String) : Option String :=
  (forgivingBase64 s.data).map (fun bs => String.mk (bs.map Char.ofNat))

/-- Browser `btoa` on a string of bytes: the standard base64 encoding. -/
def btoa (s : String) : String :=
  String.mk (b64Encode (s.data.map Char.toNat))

/-- The result of `Response.json()` on the submit response of the
two-phase client: either the parse rejected, or it produced an object
whose `status`, `log` and `filename` fields are each a string or absent. -/
inductive JsonResult where
  | parseFail
  | parsed (status : Option String) (log : Option String) (filename : Option String)
deriving DecidableEq

/-- The observable parts of a `fetch` response that the two clients read:
`ok`/`status`/`statusText`, the `content-type` header, the body bytes
(as a string of bytes, returned by `Response.blob()`/`text()`), the
`Blob.type` of the body, and the outcome of `Response.json()`. -/
structure JsResponse where
  ok : Bool
  status : Nat
  statusText : String
  contentType : Option String
  body : String
  blobType : String
  json : JsonResult
deriving DecidableEq

/-- One network interaction: either the `fetch` promise rejected (with
the error-class flag and message the code inspects), or it resolved to a
response. -/
inductive NetOutcome where
  | thrown (isTypeError : Bool) (message : String)
  | response (r : JsResponse)
deriving DecidableEq

/-- The error taxonomy of the specification (section 7).  Modelled from
the spec: the source only throws `Error` objects with message strings;
these kinds name the throw-site categories the spec assigns to them. -/
inductive ErrorKind where
  | transportUnreachable
  | relayFailure
  | upstreamRejected
  | compilationFailed
  | protocolViolation
deriving DecidableEq

namespace LatexCompilationService

/-- One constructor per `throw` site of
`src/services/latexCompilationService.ts`, carrying the data
interpolated into the thrown message. -/
inductive LatexOnlineError where
  | networkCouldNotConnect
  | networkUnexpected (message : String)
  | serviceOrProxyError (status : Nat) (statusText : String) (body : String)
  | proxyErrorPage
  | compilationFailed (log : String)
  | unexpectedResponse (contentType : Option String)
deriving DecidableEq

/-- The single-phase client of `src/services/latexCompilationService.ts`,
as a function of the submitted LaTeX source and of the outcome of its one
network call.  A rejected promise of the source is the `Except.error`
branch here. -/
def compileLatexToPdf (latexCode : String) (net : NetOutcome) :
    Except LatexOnlineError String :=
  match net with
  | .thrown isTypeError msg =>
      if isTypeError && includes msg "Failed to fetch" then
        .error .networkCouldNotConnect
      else
        .error (.networkUnexpected msg)
  | .response r =>
      if !r.ok then
        .error (.serviceOrProxyError r.status r.statusText r.body)
      else if truthyOpt r.contentType &&
              includes (r.contentType.getD "") "application/pdf" then
        .ok r.body
      else if truthyOpt r.contentType &&
              (includes (r.contentType.getD "") "text/plain" ||
               includes (r.contentType.getD "") "text/html") then
        let logText := r.body
        if includes (jsToLower logText) "allorigins" || includes (jsToLower logText) "proxy" then
          .error .proxyErrorPage
        else
          .error (.compilationFailed logText)
      else
        .error (.unexpectedResponse r.contentType)

/-- The spec-taxonomy kind of each throw site of the single-phase client.
Modelled from the spec (section 7): the source carries only message
strings, not kind tags. -/
def errorKind : LatexOnlineError → ErrorKind
  | .networkCouldNotConnect => .transportUnreachable
  | .networkUnexpected _ => .transportUnreachable
  | .serviceOrProxyError _ _ _ => .upstreamRejected
  | .proxyErrorPage => .relayFailure
  | .compilationFailed _ => .compilationFailed
  | .unexpectedResponse _ => .protocolViolation

end LatexCompilationService

namespace GeminiService

/-- One constructor per `throw` site of the two-phase client at the end
of `src/services/geminiService.ts`, carrying the data interpolated into
the thrown message. -/
inductive RtexError where
  | submitNetworkCouldNotConnect
  | submitNetworkUnexpected (message : String)
  | serviceOrProxyDown (status : Nat) (statusText : String)
  | serviceError (status : Nat) (statusText : String) (body : String)
  | jsonParseFailed
  | compilationFailed (log : String)
  | unexpectedServiceResponse
  | downloadNetworkCouldNotConnect
  | downloadNetworkUnexpected (message : String)
  | downloadFailed (status : Nat) (statusText : String)
  | proxyErrorPageInsteadOfPdf
  | downloadedNotPdf (blobType : String)
deriving DecidableEq

/-- The error-log normalisation inlined at the `result.status === "error"`
branch of the source: start from the fixed text `No log available.`; if a
`log` field is (truthily) present, decode it with `atob`, and on decode
failure use the fixed placeholder `Could not decode the error log.`. -/
def extractLog (log : Option String) : String :=
  if truthyOpt log then
    match atob (log.getD "") with
    | some decoded => decoded
    | none => "Could not decode the error log."
  else
    "No log available."

/-- The two-phase client `compileLatexToPdf` of
`src/services/geminiService.ts`, as a function of the submitted LaTeX
source and of the environment `net`, which gives the outcome of the n-th
network call the client makes (call 0 is the JSON submit, call 1 the PDF
download).  The second component counts the network calls performed, so
the embedding can state how many round-trips a run makes.  A rejected
promise of the source is the `Except.error` branch here. -/
def compileLatexToPdf (latexCode : String) (net : Nat → NetOutcome) :
    Except RtexError String × Nat :=
  match net 0 with
  | .thrown isTypeError msg =>
      if isTypeError && includes msg "Failed to fetch" then
        (.error .submitNetworkCouldNotConnect, 1)
      else
        (.error (.submitNetworkUnexpected msg), 1)
  | .response r =>
      if !r.ok then
        if 500 ≤ r.status then
          (.error (.serviceOrProxyDown r.status r.statusText), 1)
        else
          (.error (.serviceError r.status r.statusText r.body), 1)
      else
        match r.json with
        | .parseFail => (.error .jsonParseFailed, 1)
        | .parsed status log filename =>
            if status == some "error" then
              (.error (.compilationFailed (extractLog log)), 1)
            else if !(status == some "success") || !(truthyOpt filename) then
              (.error .unexpectedServiceResponse, 1)
            else
              match net 1 with
              | .thrown isTypeError msg =>
                  if isTypeError && includes msg "Failed to fetch" then
                    (.error .downloadNetworkCouldNotConnect, 2)
                  else
                    (.error (.downloadNetworkUnexpected msg), 2)
              | .response p =>
                  if !p.ok then
                    (.error (.downloadFailed p.status p.statusText), 2)
                  else if !(p.blobType == "application/pdf") then
                    if includes (jsToLower p.body) "proxy" || includes (jsToLower p.body) "error" then
                      (.error .proxyErrorPageInsteadOfPdf, 2)
                    else
                      (.error (.downloadedNotPdf p.blobType), 2)
                  else
                    (.ok p.body, 2)

/-- The spec-taxonomy kind of each throw site of the two-phase client.
Modelled from the spec (section 7): the source carries only message
strings, not kind tags. -/
def errorKind : RtexError → ErrorKind
  | .submitNetworkCouldNotConnect => .transportUnreachable
  | .submitNetworkUnexpected _ => .transportUnreachable
  | .serviceOrProxyDown _ _ => .relayFailure
  | .serviceError _ _ _ => .upstreamRejected
  | .jsonParseFailed => .protocolViolation
  | .compilationFailed _ => .compilationFailed
  | .unexpectedServiceResponse => .protocolViolation
  | .downloadNetworkCouldNotConnect => .transportUnreachable
  | .downloadNetworkUnexpected _ => .transportUnreachable
  | .downloadFailed _ _ => .upstreamRejected
  | .proxyErrorPageInsteadOfPdf => .relayFailure
  | .downloadedNotPdf _ => .protocolViolation

end GeminiService

/-- Every sextet value maps through the alphabet and back to itself. -/
theorem b64Val_b64Char : ∀ n, n < 64 → b64Val (b64Char n) = some n := by decide

/-- No alphabet character is the padding character. -/
theorem b64Char_beq_pad : ∀ n, n < 64 → (b64Char n == '=') = false := by decide

/-- No alphabet character equals the padding character. -/
theorem b64Char_ne_pad (n : Nat) (h : n < 64) : b64Char n ≠ '=' :=
  beq_eq_false_iff_ne.mp (b64Char_beq_pad n h)

/-- No alphabet character is ASCII whitespace. -/
theorem b64Char_not_space : ∀ n, n < 64 → isB64Space (b64Char n) = false := by decide

/-- No character of an encoding is ASCII whitespace. -/
theorem not_space_of_mem_b64Encode :
    ∀ (l : List Nat), (∀ x ∈ l, x < 256) → ∀ ch ∈ b64Encode l, isB64Space ch = false
  | [], _, ch, hch => by simp [b64Encode] at hch
  | [a], h, ch, hch => by
      have ha : a < 256 := h a (by simp)
      simp [b64Encode] at hch
      rcases hch with rfl | rfl | rfl
      · exact b64Char_not_space (a / 4) (by omega)
      · exact b64Char_not_space (a % 4 * 16) (by omega)
      · decide
  | [a, b], h, ch, hch => by
      have ha : a < 256 := h a (by simp)
      have hb : b < 256 := h b (by simp)
      simp [b64Encode] at hch
      rcases hch with rfl | rfl | rfl | rfl
      · exact b64Char_not_space (a / 4) (by omega)
      · exact b64Char_not_space (a % 4 * 16 + b / 16) (by omega)
      · exact b64Char_not_space (b % 16 * 4) (by omega)
      · decide
  | a :: b :: c :: rest, h, ch, hch => by
      have ha : a < 256 := h a (by simp)
      have hb : b < 256 := h b (by simp)
      have hc : c < 256 := h c (by simp)
      simp [b64Encode] at hch
      rcases hch with rfl | rfl | rfl | rfl | hmem
      · exact b64Char_not_space (a / 4) (by omega)
      · exact b64Char_not_space (a % 4 * 16 + b / 16) (by omega)
      · exact b64Char_not_space (b % 16 * 4 + c / 64) (by omega)
      · exact b64Char_not_space (c % 64) (by omega)
      · exact not_space_of_mem_b64Encode rest (fun x hx => h x (by simp [hx])) ch hmem

/-- The whitespace filter of the forgiving decoder leaves an encoding
unchanged. -/
theorem filter_space_b64Encode (l : List Nat) (h : ∀ x ∈ l, x < 256) :
    (b64Encode l).filter (fun ch => !(isB64Space ch)) = b64Encode l := by
  rw [List.filter_eq_self]
  intro ch hch
  simp [not_space_of_mem_b64Encode l h ch hch]

/-- The length of an encoding is a multiple of four. -/
theorem b64Encode_length_mod4 : ∀ l : List Nat, (b64Encode l).length % 4 = 0
  | [] => rfl
  | [_] => by simp [b64Encode]
  | [_, _] => by simp [b64Encode]
  | a :: b :: c :: rest => by
      have ih := b64Encode_length_mod4 rest
      simp [b64Encode]
      omega

/-- The encoding of a non-empty byte sequence has at least four
characters. -/
theorem b64Encode_len_ge (l : List Nat) (h : l ≠ []) : 4 ≤ (b64Encode l).length := by
  rcases l with _ | ⟨a, _ | ⟨b, _ | ⟨c, t⟩⟩⟩
  · simp at h
  · simp [b64Encode]
  · simp [b64Encode]
  · simp [b64Encode]

/-- Padding removal passes over a head whose tail has at least two
characters. -/
theorem dtp_cons_of_long (x : Char) (l : List Char) (h : 2 ≤ l.length) :
    dropTrailingPad (x :: l) = x :: dropTrailingPad l := by
  have h1 : ¬(l = [] ∧ x = '=') := by rintro ⟨rfl, _⟩; simp at h
  have h2 : ¬(l = ['='] ∧ x = '=') := by rintro ⟨rfl, _⟩; simp at h
  rw [show dropTrailingPad (x :: l)
        = if l = [] ∧ x = '=' then []
          else if l = ['='] ∧ x = '=' then []
          else x :: dropTrailingPad l from rfl]
  rw [if_neg h1, if_neg h2]

/-- Padding removal passes over a full four-character group followed by
at least two more characters. -/
theorem dtp_four_cons (w x y z : Char) (t : List Char) (ht : 2 ≤ t.length) :
    dropTrailingPad (w :: x :: y :: z :: t) = w :: x :: y :: z :: dropTrailingPad t := by
  rw [dtp_cons_of_long w _ (by simp only [List.length_cons]; omega),
      dtp_cons_of_long x _ (by simp only [List.length_cons]; omega),
      dtp_cons_of_long y _ (by simp only [List.length_cons]; omega),
      dtp_cons_of_long z _ ht]

/-- After padding removal, sextet mapping and byte assembly recover the
encoded byte sequence. -/
theorem sextets_bytes_b64Encode :
    ∀ l : List Nat, (∀ x ∈ l, x < 256) →
      (b64Sextets (dropTrailingPad (b64Encode l))).bind bytesOfSextets = some l
  | [], _ => rfl
  | [a], h => by
      have ha : a < 256 := h a (by simp)
      simp [b64Encode, dropTrailingPad, b64Sextets, bytesOfSextets,
        b64Val_b64Char (a / 4) (by omega),
        b64Val_b64Char (a % 4 * 16) (by omega)]
      omega
  | [a, b], h => by
      have ha : a < 256 := h a (by simp)
      have hb : b < 256 := h b (by simp)
      simp [b64Encode, dropTrailingPad, b64Sextets, bytesOfSextets,
        b64Val_b64Char (a / 4) (by omega),
        b64Val_b64Char (a % 4 * 16 + b / 16) (by omega),
        b64Val_b64Char (b % 16 * 4) (by omega),
        b64Char_ne_pad (b % 16 * 4) (by omega)]
      omega
  | a :: b :: c :: rest, h => by
      have ha : a < 256 := h a (by simp)
      have hb : b < 256 := h b (by simp)
      have hc : c < 256 := h c (by simp)
      have ih := sextets_bytes_b64Encode rest (fun x hx => h x (by simp [hx]))
      rcases rest with _ | ⟨d, rest2⟩
      · simp [b64Encode, dropTrailingPad, b64Sextets, bytesOfSextets,
          b64Val_b64Char (a / 4) (by omega),
          b64Val_b64Char (a % 4 * 16 + b / 16) (by omega),
          b64Val_b64Char (b % 16 * 4 + c / 64) (by omega),
          b64Val_b64Char (c % 64) (by omega),
          b64Char_ne_pad (b % 16 * 4 + c / 64) (by omega),
          b64Char_ne_pad (c % 64) (by omega)]
        omega
      · have hlen : 4 ≤ (b64Encode (d :: rest2)).length :=
          b64Encode_len_ge _ (by simp)
        rw [show b64Encode (a :: b :: c :: d :: rest2)
              = b64Char (a / 4) :: b64Char (a % 4 * 16 + b / 16) ::
                b64Char (b % 16 * 4 + c / 64) :: b64Char (c % 64) ::
                b64Encode (d :: rest2) from rfl]
        rw [dtp_four_cons _ _ _ _ _ (by omega)]
        rcases hs : b64Sextets (dropTrailingPad (b64Encode (d :: rest2))) with _ | vs
        · rw [hs] at ih
          simp at ih
        · rw [hs] at ih
          simp only [Option.some_bind] at ih
          simp [b64Sextets, hs, bytesOfSextets, ih,
            b64Val_b64Char (a / 4) (by omega),
            b64Val_b64Char (a % 4 * 16 + b / 16) (by omega),
            b64Val_b64Char (b % 16 * 4 + c / 64) (by omega),
            b64Val_b64Char (c % 64) (by omega)]
          omega

/-- The forgiving decoder is a left inverse of encoding on byte
sequences. -/
theorem forgiving_b64Encode (l : List Nat) (h : ∀ x ∈ l, x < 256) :
    forgivingBase64 (b64Encode l) = some l := by
  have hlen := b64Encode_length_mod4 l
  unfold forgivingBase64 stripForgiving
  rw [filter_space_b64Encode l h]
  rw [if_pos (by simp [hlen])]
  exact sextets_bytes_b64Encode l h

/-- `atob` undoes `btoa` on strings of byte-sized characters. -/
theorem atob_btoa (s : String) (h : ∀ c ∈ s.data, c.toNat < 256) :
    atob (btoa s) = some s := by
  have hb : ∀ x ∈ s.data.map Char.toNat, x < 256 := by
    intro x hx
    rcases List.mem_map.mp hx with ⟨c, hc, rfl⟩
    exact h c hc
  have hmaps : (s.data.map Char.toNat).map Char.ofNat = s.data := by
    rw [List.map_map]
    have he : ∀ c ∈ s.data, (Char.ofNat ∘ Char.toNat) c = c := by
      intro c hc
      simp [Char.ofNat_toNat]
    rw [List.map_congr_left he]; simp
  simp only [atob, btoa]
  rw [forgiving_b64Encode _ hb]
  simp [hmaps]

/-- `btoa` of a non-empty string is non-empty. -/
theorem btoa_ne_empty (s : String) (h : s ≠ "") : btoa s ≠ "" := by
  intro hcon
  apply h
  have hdata : (btoa s).data = [] := by rw [hcon]
  simp only [btoa] at hdata
  have henc : b64Encode (s.data.map Char.toNat) = [] := hdata
  rcases hs : s.data.map Char.toNat with _ | ⟨a, _ | ⟨b, rest⟩⟩
  · have hlen : s.data = [] := List.map_eq_nil_iff.mp hs
    cases s with
    | mk d => cases hlen; rfl
  · rw [hs] at henc; simp [b64Encode] at henc
  · rw [hs] at henc
    rcases rest with _ | ⟨c, rest2⟩
    · simp [b64Encode] at henc
    · simp [b64Encode] at henc

/-- Claim C1: for every input document and every response the remote
service or proxy can produce, both `compileLatexToPdf` variants terminate
and yield exactly one of a PDF artifact or a compilation-error value;
every error is the value branch of the result, so each client is a total
function with no unhandled exit path. -/
theorem compile_is_total (latexCode : String) (net1 : NetOutcome)
    (net2 : Nat → NetOutcome) :
    ((∃ pdf, LatexCompilationService.compileLatexToPdf latexCode net1 = .ok pdf) ∨
      (∃ e, LatexCompilationService.compileLatexToPdf latexCode net1 = .error e)) ∧
    ((∃ pdf n, GeminiService.compileLatexToPdf latexCode net2 = (.ok pdf, n)) ∨
      (∃ e n, GeminiService.compileLatexToPdf latexCode net2 = (.error e, n))) := by
  constructor
  · cases h : LatexCompilationService.compileLatexToPdf latexCode net1 with
    | ok pdf => exact Or.inl ⟨pdf, rfl⟩
    | error e => exact Or.inr ⟨e, rfl⟩
  · rcases h : GeminiService.compileLatexToPdf latexCode net2 with ⟨res, n⟩
    cases res with
    | ok pdf => exact Or.inl ⟨pdf, n, rfl⟩
    | error e => exact Or.inr ⟨e, n, rfl⟩

/-- Claim C2: a transport-success response whose content-type asserts
plain text or HTML is classified as a diagnostic: the compile call
reports a failure (the proxy-page error or the compilation log), never a
successful artifact, regardless of the 2xx status. -/
theorem text_response_is_failure (latexCode : String) (r : JsResponse) (ct : String)
    (hok : r.ok = true)
    (hct : r.contentType = some ct)
    (hne : ct ≠ "")
    (htext : includes ct "text/plain" = true ∨ includes ct "text/html" = true)
    (hnotpdf : includes ct "application/pdf" = false) :
    (LatexCompilationService.compileLatexToPdf latexCode (.response r)
        = .error .proxyErrorPage ∨
      LatexCompilationService.compileLatexToPdf latexCode (.response r)
        = .error (.compilationFailed r.body)) ∧
    ∀ pdf, LatexCompilationService.compileLatexToPdf latexCode (.response r) ≠ .ok pdf := by
  have hbeq : (ct == "") = false := beq_eq_false_iff_ne.mpr hne
  have hres : LatexCompilationService.compileLatexToPdf latexCode (.response r)
      = (if includes (jsToLower r.body) "allorigins" || includes (jsToLower r.body) "proxy" then
          .error .proxyErrorPage
        else
          .error (.compilationFailed r.body)) := by
    unfold LatexCompilationService.compileLatexToPdf
    rcases htext with h | h <;>
      simp [hok, hct, truthyOpt, hbeq, hnotpdf, h]
  by_cases hp : (includes (jsToLower r.body) "allorigins" || includes (jsToLower r.body) "proxy") = true
  · rw [hres, if_pos hp]
    exact ⟨Or.inl rfl, fun pdf => by simp⟩
  · rw [hres, if_neg hp]
    exact ⟨Or.inr rfl, fun pdf => by simp⟩

/-- Witness for C2 at a concrete text/html log response. -/
theorem text_response_is_failure_witness :
    (includes "text/html" "text/plain" = true ∨ includes "text/html" "text/html" = true) ∧
    includes "text/html" "application/pdf" = false ∧
    ((LatexCompilationService.compileLatexToPdf "x"
          (.response { ok := true, status := 200, statusText := "OK",
                       contentType := some "text/html", body := "missing begin document",
                       blobType := "text/html", json := .parseFail })
        = .error .proxyErrorPage ∨
      LatexCompilationService.compileLatexToPdf "x"
          (.response { ok := true, status := 200, statusText := "OK",
                       contentType := some "text/html", body := "missing begin document",
                       blobType := "text/html", json := .parseFail })
        = .error (.compilationFailed "missing begin document")) ∧
      ∀ pdf, LatexCompilationService.compileLatexToPdf "x"
          (.response { ok := true, status := 200, statusText := "OK",
                       contentType := some "text/html", body := "missing begin document",
                       blobType := "text/html", json := .parseFail })
        ≠ .ok pdf) :=
  ⟨Or.inr (by decide), by decide,
    text_response_is_failure "x" _ "text/html" rfl rfl (by decide)
      (Or.inr (by decide)) (by decide)⟩

/-- Claim C3: a transport-success response with content-type
`application/pdf` and a non-empty body yields the artifact outcome
carrying exactly the body bytes, unmodified. -/
theorem pdf_response_returns_exact_bytes (latexCode : String) (r : JsResponse) (ct : String)
    (hok : r.ok = true)
    (hct : r.contentType = some ct)
    (hne : ct ≠ "")
    (hpdf : includes ct "application/pdf" = true)
    (hbody : r.body ≠ "") :
    LatexCompilationService.compileLatexToPdf latexCode (.response r) = .ok r.body := by
  have hbeq : (ct == "") = false := beq_eq_false_iff_ne.mpr hne
  unfold LatexCompilationService.compileLatexToPdf
  simp [hok, hct, truthyOpt, hbeq, hpdf]

/-- Witness for C3 at a concrete PDF response. -/
theorem pdf_response_returns_exact_bytes_witness :
    includes "application/pdf" "application/pdf" = true ∧
    ("%PDF-1.4 data" : String) ≠ "" ∧
    LatexCompilationService.compileLatexToPdf "x"
        (.response { ok := true, status := 200, statusText := "OK",
                     contentType := some "application/pdf", body := "%PDF-1.4 data",
                     blobType := "application/pdf", json := .parseFail })
      = .ok "%PDF-1.4 data" :=
  ⟨by decide, by decide,
    pdf_response_returns_exact_bytes "x" _ "application/pdf" rfl rfl (by decide)
      (by decide) (by decide)⟩

/-- Counterexample to claim C8: on a text/html response whose body is
`<pre>Error on line 4</pre>` the client reports the raw body as the log;
it does not strip the tags down to `Error on line 4`. -/
theorem html_pre_not_extracted :
    LatexCompilationService.compileLatexToPdf "x"
        (.response { ok := true, status := 200, statusText := "OK",
                     contentType := some "text/html",
                     body := "<pre>Error on line 4</pre>",
                     blobType := "text/html", json := .parseFail })
      = .error (.compilationFailed "<pre>Error on line 4</pre>") ∧
    LatexCompilationService.LatexOnlineError.compilationFailed "<pre>Error on line 4</pre>"
      ≠ .compilationFailed "Error on line 4" := by
  refine ⟨rfl, ?_⟩
  decide

/-- Claim C8 as amended: a transport-success text/html response with no
proxy marker in its body is reported as a compilation failure whose log
is the raw body verbatim - HTML tags are not stripped, entities are not
decoded, and there is no placeholder fallback for a missing pre region. -/
theorem html_body_reported_verbatim (latexCode : String) (r : JsResponse) (ct : String)
    (hok : r.ok = true)
    (hct : r.contentType = some ct)
    (hne : ct ≠ "")
    (hhtml : includes ct "text/html" = true)
    (hnotpdf : includes ct "application/pdf" = false)
    (hpre : includes r.body "<pre>Error on line 4</pre>" = true)
    (hmark1 : includes (jsToLower r.body) "allorigins" = false)
    (hmark2 : includes (jsToLower r.body) "proxy" = false) :
    LatexCompilationService.compileLatexToPdf latexCode (.response r)
      = .error (.compilationFailed r.body) := by
  have hbeq : (ct == "") = false := beq_eq_false_iff_ne.mpr hne
  unfold LatexCompilationService.compileLatexToPdf
  simp [hok, hct, truthyOpt, hbeq, hnotpdf, hhtml, hmark1, hmark2]

/-- Witness for the amended C8 at the concrete pre-tagged body. -/
theorem html_body_reported_verbatim_witness :
    includes "<pre>Error on line 4</pre>" "<pre>Error on line 4</pre>" = true ∧
    includes "text/html" "application/pdf" = false ∧
    LatexCompilationService.compileLatexToPdf "x"
        (.response { ok := true, status := 200, statusText := "OK",
                     contentType := some "text/html",
                     body := "<pre>Error on line 4</pre>",
                     blobType := "text/html", json := .parseFail })
      = .error (.compilationFailed "<pre>Error on line 4</pre>") :=
  ⟨by decide, by decide,
    html_body_reported_verbatim "x" _ "text/html" rfl rfl (by decide) (by decide)
      (by decide) (by decide) (by decide) (by decide)⟩

/-- Claim C9: a transport-success text response whose body mentions
`allorigins` or `proxy` in any letter case is reported as a CORS-proxy
error, not as a compilation log - even when the body is a genuine LaTeX
log that merely mentions the word proxy. -/
theorem proxy_marker_reported_as_proxy_error (latexCode : String) (r : JsResponse) (ct : String)
    (hok : r.ok = true)
    (hct : r.contentType = some ct)
    (hne : ct ≠ "")
    (htext : includes ct "text/plain" = true ∨ includes ct "text/html" = true)
    (hnotpdf : includes ct "application/pdf" = false)
    (hmark : includes (jsToLower r.body) "allorigins" = true ∨
      includes (jsToLower r.body) "proxy" = true) :
    LatexCompilationService.compileLatexToPdf latexCode (.response r)
      = .error .proxyErrorPage := by
  have hbeq : (ct == "") = false := beq_eq_false_iff_ne.mpr hne
  unfold LatexCompilationService.compileLatexToPdf
  rcases htext with h | h <;> rcases hmark with hm | hm <;>
    simp [hok, hct, truthyOpt, hbeq, hnotpdf, h, hm]

/-- Witness for C9 at a genuine LaTeX log that mentions a proxy style
file: the client still reports a proxy error. -/
theorem proxy_marker_reported_as_proxy_error_witness :
    includes (jsToLower "! LaTeX Error: File proxy.sty not found.") "proxy" = true ∧
    includes "text/plain" "application/pdf" = false ∧
    LatexCompilationService.compileLatexToPdf "x"
        (.response { ok := true, status := 200, statusText := "OK",
                     contentType := some "text/plain",
                     body := "! LaTeX Error: File proxy.sty not found.",
                     blobType := "text/plain", json := .parseFail })
      = .error .proxyErrorPage :=
  ⟨by decide, by decide,
    proxy_marker_reported_as_proxy_error "x" _ "text/plain" rfl rfl (by decide)
      (Or.inl (by decide)) (by decide) (Or.inr (by decide))⟩

/-- The two-phase client performs at most two network calls on any run. -/
theorem fetchCount_le_two (latexCode : String) (net : Nat → NetOutcome) :
    (GeminiService.compileLatexToPdf latexCode net).2 ≤ 2 := by
  unfold GeminiService.compileLatexToPdf
  rcases h0 : net 0 with ⟨te, m⟩ | r
  · dsimp only
    split <;> simp
  · rcases hj : r.json with _ | ⟨st, lg, fn⟩ <;>
      rcases h1 : net 1 with ⟨te2, m2⟩ | p <;>
        simp only [hj] <;> (repeat' split) <;> simp

/-- Claim C4: after a submit response classified as a reference (a
success status carrying a filename), exactly one follow-up fetch is
performed and its result is classified exactly once: a PDF-typed fetch
response makes the final result the fetched bytes, while a
reference-shaped (non-PDF) fetch response yields the protocol-violation
error and is never followed by another fetch; every run of the client
performs at most two sequential network calls. -/
theorem two_phase_single_resolution (latexCode : String) (net : Nat → NetOutcome)
    (r : JsResponse) (lg fn : Option String)
    (hnet0 : net 0 = .response r)
    (hok : r.ok = true)
    (hjson : r.json = .parsed (some "success") lg fn)
    (hfn : truthyOpt fn = true) :
    (∀ p, net 1 = .response p → p.ok = true → p.blobType = "application/pdf" →
      GeminiService.compileLatexToPdf latexCode net = (.ok p.body, 2)) ∧
    (∀ p, net 1 = .response p → p.ok = true → p.blobType ≠ "application/pdf" →
      includes (jsToLower p.body) "proxy" = false →
      includes (jsToLower p.body) "error" = false →
      GeminiService.compileLatexToPdf latexCode net
          = (.error (.downloadedNotPdf p.blobType), 2) ∧
      GeminiService.errorKind (.downloadedNotPdf p.blobType) = .protocolViolation) ∧
    (∀ lc m, (GeminiService.compileLatexToPdf lc m).2 ≤ 2) := by
  have hse : ((some "success" : Option String) == some "error") = false := by decide
  have hss : ((some "success" : Option String) == some "success") = true := by decide
  refine ⟨?_, ?_, fun lc m => fetchCount_le_two lc m⟩
  · intro p h1 hpok hptype
    unfold GeminiService.compileLatexToPdf
    rw [hnet0]
    simp [hok, hjson, hse, hss, hfn, h1, hpok, hptype]
  · intro p h1 hpok hptype hm1 hm2
    have hbt : (p.blobType == "application/pdf") = false := beq_eq_false_iff_ne.mpr hptype
    refine ⟨?_, rfl⟩
    unfold GeminiService.compileLatexToPdf
    rw [hnet0]
    simp [hok, hjson, hse, hss, hfn, h1, hpok, hbt, hm1, hm2]

/-- Witness for C4: one reference submit followed by a PDF fetch, and the
same submit followed by a second reference-shaped fetch. -/
theorem two_phase_single_resolution_witness :
    truthyOpt (some "abc.pdf") = true ∧
    GeminiService.compileLatexToPdf "x"
        (fun n => if n == 0 then
          .response { ok := true, status := 200, statusText := "OK",
                      contentType := some "application/json", body := "",
                      blobType := "application/json",
                      json := .parsed (some "success") none (some "abc.pdf") }
        else
          .response { ok := true, status := 200, statusText := "OK",
                      contentType := some "application/pdf", body := "%PDF-1.4 bytes",
                      blobType := "application/pdf", json := .parseFail })
      = (.ok "%PDF-1.4 bytes", 2) ∧
    GeminiService.compileLatexToPdf "x"
        (fun n => if n == 0 then
          .response { ok := true, status := 200, statusText := "OK",
                      contentType := some "application/json", body := "",
                      blobType := "application/json",
                      json := .parsed (some "success") none (some "abc.pdf") }
        else
          .response { ok := true, status := 200, statusText := "OK",
                      contentType := some "application/json",
                      body := "status success filename abc.pdf",
                      blobType := "application/json",
                      json := .parsed (some "success") none (some "abc.pdf") })
      = (.error (.downloadedNotPdf "application/json"), 2) ∧
    GeminiService.errorKind (.downloadedNotPdf "application/json") = .protocolViolation := by
  have hA := two_phase_single_resolution "x"
      (fun n => if n == 0 then
        .response { ok := true, status := 200, statusText := "OK",
                      contentType := some "application/json", body := "",
                      blobType := "application/json",
                      json := .parsed (some "success") none (some "abc.pdf") }
      else
        .response { ok := true, status := 200, statusText := "OK",
                      contentType := some "application/pdf", body := "%PDF-1.4 bytes",
                      blobType := "application/pdf", json := .parseFail })
      { ok := true, status := 200, statusText := "OK",
                      contentType := some "application/json", body := "",
                      blobType := "application/json",
                      json := .parsed (some "success") none (some "abc.pdf") } none (some "abc.pdf") rfl rfl rfl (by decide)
  have hB := two_phase_single_resolution "x"
      (fun n => if n == 0 then
        .response { ok := true, status := 200, statusText := "OK",
                      contentType := some "application/json", body := "",
                      blobType := "application/json",
                      json := .parsed (some "success") none (some "abc.pdf") }
      else
        .response { ok := true, status := 200, statusText := "OK",
                      contentType := some "application/json",
                      body := "status success filename abc.pdf",
                      blobType := "application/json",
                      json := .parsed (some "success") none (some "abc.pdf") })
      { ok := true, status := 200, statusText := "OK",
                      contentType := some "application/json", body := "",
                      blobType := "application/json",
                      json := .parsed (some "success") none (some "abc.pdf") } none (some "abc.pdf") rfl rfl rfl (by decide)
  refine ⟨by decide, ?_, ?_, ?_⟩
  · exact hA.1 { ok := true, status := 200, statusText := "OK",
                      contentType := some "application/pdf", body := "%PDF-1.4 bytes",
                      blobType := "application/pdf", json := .parseFail } rfl rfl rfl
  · exact (hB.2.1 { ok := true, status := 200, statusText := "OK",
                      contentType := some "application/json",
                      body := "status success filename abc.pdf",
                      blobType := "application/json",
                      json := .parsed (some "success") none (some "abc.pdf") } rfl rfl (by decide) (by decide) (by decide)).1
  · exact (hB.2.1 { ok := true, status := 200, statusText := "OK",
                      contentType := some "application/json",
                      body := "status success filename abc.pdf",
                      blobType := "application/json",
                      json := .parsed (some "success") none (some "abc.pdf") } rfl rfl (by decide) (by decide) (by decide)).2

/-- Claim C5: when the error-status submit response carries a log field
that is not valid base64, log extraction yields the fixed placeholder
instead of propagating the decode failure, and the compile call still
reports the compilation-failed outcome after its single network call. -/
theorem invalid_log_yields_placeholder (latexCode lg : String) (net : Nat → NetOutcome)
    (r : JsResponse) (fn : Option String)
    (hnet0 : net 0 = .response r)
    (hok : r.ok = true)
    (hjson : r.json = .parsed (some "error") (some lg) fn)
    (hne : lg ≠ "")
    (hbad : atob lg = none) :
    GeminiService.compileLatexToPdf latexCode net
        = (.error (.compilationFailed "Could not decode the error log."), 1) ∧
    GeminiService.extractLog (some lg) = "Could not decode the error log." ∧
    GeminiService.errorKind (.compilationFailed "Could not decode the error log.")
        = .compilationFailed := by
  have hbeq : (lg == "") = false := beq_eq_false_iff_ne.mpr hne
  have hlog : GeminiService.extractLog (some lg) = "Could not decode the error log." := by
    unfold GeminiService.extractLog
    simp [truthyOpt, hbeq, hbad]
  refine ⟨?_, hlog, rfl⟩
  have hee : ((some "error" : Option String) == some "error") = true := by decide
  unfold GeminiService.compileLatexToPdf
  rw [hnet0]
  simp [hok, hjson, hee, hlog]

/-- Witness for C5 at the concrete invalid base64 payload. -/
theorem invalid_log_yields_placeholder_witness :
    atob "%%%" = none ∧
    GeminiService.compileLatexToPdf "x"
        (fun n => .response { ok := true, status := 200, statusText := "OK",
                              contentType := some "application/json", body := "",
                              blobType := "application/json",
                              json := .parsed (some "error") (some "%%%") none })
      = (.error (.compilationFailed "Could not decode the error log."), 1) := by
  refine ⟨by decide, ?_⟩
  exact (invalid_log_yields_placeholder "x" "%%%"
    (fun n => .response { ok := true, status := 200, statusText := "OK",
                          contentType := some "application/json", body := "",
                          blobType := "application/json",
                          json := .parsed (some "error") (some "%%%") none })
    { ok := true, status := 200, statusText := "OK",
      contentType := some "application/json", body := "",
      blobType := "application/json",
      json := .parsed (some "error") (some "%%%") none }
    none rfl rfl rfl (by decide) (by decide)).1

/-- Claim C6: when the initial submission itself fails with the
connection-level TypeError the code inspects, both clients report the
could-not-connect error - distinguished from other network failures - and
the two-phase client performs no follow-up fetch (exactly one network
call happens). -/
theorem network_failure_no_fetch (latexCode msg : String) (net : Nat → NetOutcome)
    (hmsg : includes msg "Failed to fetch" = true)
    (hnet0 : net 0 = .thrown true msg) :
    LatexCompilationService.compileLatexToPdf latexCode (.thrown true msg)
        = .error .networkCouldNotConnect ∧
    GeminiService.compileLatexToPdf latexCode net
        = (.error .submitNetworkCouldNotConnect, 1) ∧
    LatexCompilationService.errorKind .networkCouldNotConnect = .transportUnreachable ∧
    GeminiService.errorKind .submitNetworkCouldNotConnect = .transportUnreachable ∧
    (∀ m, GeminiService.RtexError.submitNetworkCouldNotConnect
        ≠ .submitNetworkUnexpected m) := by
  refine ⟨?_, ?_, rfl, rfl, fun m h => by cases h⟩
  · unfold LatexCompilationService.compileLatexToPdf
    simp [hmsg]
  · unfold GeminiService.compileLatexToPdf
    rw [hnet0]
    simp [hmsg]

/-- Witness for C6 at the concrete browser failure message. -/
theorem network_failure_no_fetch_witness :
    includes "TypeError: Failed to fetch" "Failed to fetch" = true ∧
    LatexCompilationService.compileLatexToPdf "x"
        (.thrown true "TypeError: Failed to fetch")
      = .error .networkCouldNotConnect ∧
    GeminiService.compileLatexToPdf "x"
        (fun n => .thrown true "TypeError: Failed to fetch")
      = (.error .submitNetworkCouldNotConnect, 1) := by
  refine ⟨by decide, ?_, ?_⟩
  · exact (network_failure_no_fetch "x" "TypeError: Failed to fetch"
      (fun n => .thrown true "TypeError: Failed to fetch") (by decide) rfl).1
  · exact (network_failure_no_fetch "x" "TypeError: Failed to fetch"
      (fun n => .thrown true "TypeError: Failed to fetch") (by decide) rfl).2.1

/-- Claim C7: base64 decoding is a left inverse of encoding over the log
extractor: an encoded-blob log whose payload is the standard base64
encoding of a plaintext log is extracted back to exactly that plaintext. -/
theorem base64_roundtrip_extraction (s : String)
    (hbytes : ∀ c ∈ s.data, c.toNat < 256) (hne : s ≠ "") :
    GeminiService.extractLog (some (btoa s)) = s ∧ atob (btoa s) = some s := by
  have hdec := atob_btoa s hbytes
  refine ⟨?_, hdec⟩
  have hbeq : (btoa s == "") = false := beq_eq_false_iff_ne.mpr (btoa_ne_empty s hne)
  unfold GeminiService.extractLog
  simp [truthyOpt, hbeq, hdec]

/-- Witness for C7 at a concrete plaintext log. -/
theorem base64_roundtrip_extraction_witness :
    (∀ c ∈ ("Overfull hbox on line 4" : String).data, c.toNat < 256) ∧
    GeminiService.extractLog (some (btoa "Overfull hbox on line 4"))
      = "Overfull hbox on line 4" ∧
    atob (btoa "Overfull hbox on line 4") = some "Overfull hbox on line 4" := by
  refine ⟨by decide, ?_, ?_⟩
  · exact (base64_roundtrip_extraction "Overfull hbox on line 4" (by decide) (by decide)).1
  · exact (base64_roundtrip_extraction "Overfull hbox on line 4" (by decide) (by decide)).2

/-- Claim C10: when the error-status submit response carries no log
field, the reported compilation failure carries exactly the fixed text
`No log available.` as its log. -/
theorem missing_log_reports_fixed_text (latexCode : String) (net : Nat → NetOutcome)
    (r : JsResponse) (fn : Option String)
    (hnet0 : net 0 = .response r)
    (hok : r.ok = true)
    (hjson : r.json = .parsed (some "error") none fn) :
    GeminiService.compileLatexToPdf latexCode net
        = (.error (.compilationFailed "No log available."), 1) ∧
    GeminiService.extractLog none = "No log available." := by
  have hee : ((some "error" : Option String) == some "error") = true := by decide
  have hlog : GeminiService.extractLog none = "No log available." := by
    unfold GeminiService.extractLog
    simp [truthyOpt]
  refine ⟨?_, hlog⟩
  unfold GeminiService.compileLatexToPdf
  rw [hnet0]
  simp [hok, hjson, hee, hlog]

/-- Witness for C10 at a concrete error response without a log field. -/
theorem missing_log_reports_fixed_text_witness :
    GeminiService.compileLatexToPdf "x"
        (fun n => .response { ok := true, status := 200, statusText := "OK",
                              contentType := some "application/json", body := "",
                              blobType := "application/json",
                              json := .parsed (some "error") none none })
      = (.error (.compilationFailed "No log available."), 1) ∧
    GeminiService.extractLog none = "No log available." :=
  missing_log_reports_fixed_text "x"
    (fun n => .response { ok := true, status := 200, statusText := "OK",
                          contentType := some "application/json", body := "",
                          blobType := "application/json",
                          json := .parsed (some "error") none none })
    { ok := true, status := 200, statusText := "OK",
      contentType := some "application/json", body := "",
      blobType := "application/json",
      json := .parsed (some "error") none none }
    none rfl rfl rfl
